import Mathlib

/-!
# Verification of the DICOM Fixer policy layer (`src/app.py`)

Shallow embedding of the policy layer of the DICOM Fixer service:
the metadata normalizer (`fix_single_dicom`), the batch processor
(`fix_dicom_zip`), the NIfTI volume slicer (`nifti_to_dicom_zip`),
and the geometry validator described by the design document.

Modelling conventions:
* A pydicom `FileDataset` becomes a `Dataset` structure whose fields are
  `Option`-valued: `none` models an absent attribute, `some v` a present one
  (`getattr(ds, f, d)` becomes `(ds.f).getD d`).
* `pydicom.uid.generate_uid()` is an external generator of globally unique
  identifier strings; it is modelled by the constructor `UID.generated n`
  applied to a monotone call counter threaded through the code, so that
  distinct calls yield distinct values.  Literal UID strings of the source
  become `UID.const s`.
* Wall-clock time (`datetime.datetime.now()`) is an input `now : DateTime`.
* Floating point metadata values (positions, spacings, affine entries) are
  modelled over `ℚ`.
* `pydicom.dcmread` is an external decoder: it is a parameter
  `dcmread : α → Except DcmError Dataset` of the batch processor, where `α`
  is the type of raw file contents.
-/

/-- A DICOM unique identifier: either a literal UID string appearing in the
source, or the result of the `n`-th call to the external `generate_uid()`. -/
inductive UID where
  | const (s : String)
  | generated (n : Nat)
deriving DecidableEq, Repr

/-- `pydicom.uid.CTImageStorage`, equal to the literal default
`"1.2.840.10008.5.1.4.1.1.2"` used in `fix_single_dicom`. -/
def CTImageStorage : UID := UID.const "1.2.840.10008.5.1.4.1.1.2"

/-- `pydicom.uid.ExplicitVRLittleEndian`. -/
def ExplicitVRLittleEndian : UID := UID.const "1.2.840.10008.1.2.1"

/-- A wall-clock timestamp already rendered by `strftime`:
`date = dt.strftime("%Y%m%d")`, `time = dt.strftime("%H%M%S")`. -/
structure DateTime where
  date : String
  time : String
deriving DecidableEq, Repr

/-- The DICOM file meta information group (`ds.file_meta`). -/
structure FileMeta where
  TransferSyntaxUID : Option UID := none
  MediaStorageSOPClassUID : Option UID := none
  MediaStorageSOPInstanceUID : Option UID := none
deriving DecidableEq, Repr

/-- A pydicom dataset restricted to the attributes the program reads or
writes.  `none` models an attribute that is absent from the dataset. -/
structure Dataset where
  file_meta : FileMeta := {}
  SOPClassUID : Option UID := none
  SOPInstanceUID : Option UID := none
  Modality : Option String := none
  PatientName : Option String := none
  PatientID : Option String := none
  StudyInstanceUID : Option UID := none
  SeriesInstanceUID : Option UID := none
  ImagePositionPatient : Option (List ℚ) := none
  ImageOrientationPatient : Option (List ℚ) := none
  PixelSpacing : Option (List ℚ) := none
  SliceThickness : Option ℚ := none
  PhotometricInterpretation : Option String := none
  ContentDate : Option String := none
  ContentTime : Option String := none
  Rows : Option Nat := none
  Columns : Option Nat := none
  InstanceNumber : Option Nat := none
  BitsAllocated : Option Nat := none
  BitsStored : Option Nat := none
  HighBit : Option Nat := none
  SamplesPerPixel : Option Nat := none
  PixelRepresentation : Option Nat := none
  PixelData : Option (List Nat) := none
deriving DecidableEq, Repr

/-- The empty dataset `FileDataset(None, {}, ...)`. -/
def emptyDataset : Dataset := {}

/-- `fix_single_dicom(ds)` (src/app.py lines 28-57): ensure the dataset has
the required metadata.  Every `ds.F = getattr(ds, "F", default)` line becomes
`F := some (ds.F.getD default)`.  `g` is the `generate_uid()` call counter;
Python evaluates the default argument of `getattr` eagerly, so each of the
three `getattr(ds, _, generate_uid())` lines consumes one counter value
whether or not the attribute is present.  `ContentDate`/`ContentTime` are
assigned unconditionally from the current time.  Returns the fixed dataset
(whose serialized bytes the endpoint stores) and the advanced counter. -/
def fix_single_dicom (ds : Dataset) (g : Nat) (now : DateTime) : Dataset × Nat :=
  ({ ds with
      SOPClassUID := some (ds.SOPClassUID.getD (UID.const "1.2.840.10008.5.1.4.1.1.2"))
      SOPInstanceUID := some (ds.SOPInstanceUID.getD (UID.generated g))
      Modality := some (ds.Modality.getD "CT")
      PatientName := some (ds.PatientName.getD "Anonymous")
      PatientID := some (ds.PatientID.getD "12345")
      StudyInstanceUID := some (ds.StudyInstanceUID.getD (UID.generated (g + 1)))
      SeriesInstanceUID := some (ds.SeriesInstanceUID.getD (UID.generated (g + 2)))
      ImagePositionPatient := some (ds.ImagePositionPatient.getD [0, 0, 0])
      ImageOrientationPatient := some (ds.ImageOrientationPatient.getD [1, 0, 0, 0, 1, 0])
      PixelSpacing := some (ds.PixelSpacing.getD [1, 1])
      SliceThickness := some (ds.SliceThickness.getD 1)
      PhotometricInterpretation := some (ds.PhotometricInterpretation.getD "MONOCHROME2")
      ContentDate := some now.date
      ContentTime := some now.time },
    g + 3)

/-- C2: The Metadata Normalizer never overwrites a field already present in
its input: for every mandatory field other than content date and content
time, if the field is set in the input dataset, the fixed dataset carries the
same value verbatim. -/
theorem fix_single_dicom_preserves_present (ds : Dataset) (g : Nat) (now : DateTime) :
    (ds.SOPClassUID.isSome → (fix_single_dicom ds g now).1.SOPClassUID = ds.SOPClassUID) ∧
    (ds.SOPInstanceUID.isSome → (fix_single_dicom ds g now).1.SOPInstanceUID = ds.SOPInstanceUID) ∧
    (ds.Modality.isSome → (fix_single_dicom ds g now).1.Modality = ds.Modality) ∧
    (ds.PatientName.isSome → (fix_single_dicom ds g now).1.PatientName = ds.PatientName) ∧
    (ds.PatientID.isSome → (fix_single_dicom ds g now).1.PatientID = ds.PatientID) ∧
    (ds.StudyInstanceUID.isSome → (fix_single_dicom ds g now).1.StudyInstanceUID = ds.StudyInstanceUID) ∧
    (ds.SeriesInstanceUID.isSome → (fix_single_dicom ds g now).1.SeriesInstanceUID = ds.SeriesInstanceUID) ∧
    (ds.ImagePositionPatient.isSome → (fix_single_dicom ds g now).1.ImagePositionPatient = ds.ImagePositionPatient) ∧
    (ds.ImageOrientationPatient.isSome → (fix_single_dicom ds g now).1.ImageOrientationPatient = ds.ImageOrientationPatient) ∧
    (ds.PixelSpacing.isSome → (fix_single_dicom ds g now).1.PixelSpacing = ds.PixelSpacing) ∧
    (ds.SliceThickness.isSome → (fix_single_dicom ds g now).1.SliceThickness = ds.SliceThickness) ∧
    (ds.PhotometricInterpretation.isSome → (fix_single_dicom ds g now).1.PhotometricInterpretation = ds.PhotometricInterpretation) := by
  refine ⟨?_, ?_, ?_, ?_, ?_, ?_, ?_, ?_, ?_, ?_, ?_, ?_⟩ <;>
    · intro h
      obtain ⟨v, hv⟩ := Option.isSome_iff_exists.mp h
      simp [fix_single_dicom, hv]

/-- A concrete dataset with all twelve preserved mandatory fields present,
used to witness the preservation theorem. -/
def dsAllSet : Dataset :=
  { SOPClassUID := some (UID.const "1.2.3")
    SOPInstanceUID := some (UID.const "1.2.4")
    Modality := some "MR"
    PatientName := some "Doe"
    PatientID := some "P1"
    StudyInstanceUID := some (UID.const "1.2.5")
    SeriesInstanceUID := some (UID.const "1.2.6")
    ImagePositionPatient := some [1, 2, 3]
    ImageOrientationPatient := some [0, 1, 0, 1, 0, 0]
    PixelSpacing := some [2, 2]
    SliceThickness := some 3
    PhotometricInterpretation := some "MONOCHROME1" }

/-- Witness for C2 at a concrete fully-populated dataset. -/
theorem fix_single_dicom_preserves_present_witness :
    (fix_single_dicom dsAllSet 0 ⟨"20260101", "120000"⟩).1.SOPClassUID = dsAllSet.SOPClassUID ∧
    (fix_single_dicom dsAllSet 0 ⟨"20260101", "120000"⟩).1.SOPInstanceUID = dsAllSet.SOPInstanceUID ∧
    (fix_single_dicom dsAllSet 0 ⟨"20260101", "120000"⟩).1.Modality = dsAllSet.Modality ∧
    (fix_single_dicom dsAllSet 0 ⟨"20260101", "120000"⟩).1.PatientName = dsAllSet.PatientName ∧
    (fix_single_dicom dsAllSet 0 ⟨"20260101", "120000"⟩).1.PatientID = dsAllSet.PatientID ∧
    (fix_single_dicom dsAllSet 0 ⟨"20260101", "120000"⟩).1.StudyInstanceUID = dsAllSet.StudyInstanceUID ∧
    (fix_single_dicom dsAllSet 0 ⟨"20260101", "120000"⟩).1.SeriesInstanceUID = dsAllSet.SeriesInstanceUID ∧
    (fix_single_dicom dsAllSet 0 ⟨"20260101", "120000"⟩).1.ImagePositionPatient = dsAllSet.ImagePositionPatient ∧
    (fix_single_dicom dsAllSet 0 ⟨"20260101", "120000"⟩).1.ImageOrientationPatient = dsAllSet.ImageOrientationPatient ∧
    (fix_single_dicom dsAllSet 0 ⟨"20260101", "120000"⟩).1.PixelSpacing = dsAllSet.PixelSpacing ∧
    (fix_single_dicom dsAllSet 0 ⟨"20260101", "120000"⟩).1.SliceThickness = dsAllSet.SliceThickness ∧
    (fix_single_dicom dsAllSet 0 ⟨"20260101", "120000"⟩).1.PhotometricInterpretation = dsAllSet.PhotometricInterpretation := by
  have h := fix_single_dicom_preserves_present dsAllSet 0 ⟨"20260101", "120000"⟩
  exact ⟨h.1 rfl, h.2.1 rfl, h.2.2.1 rfl, h.2.2.2.1 rfl, h.2.2.2.2.1 rfl,
    h.2.2.2.2.2.1 rfl, h.2.2.2.2.2.2.1 rfl, h.2.2.2.2.2.2.2.1 rfl,
    h.2.2.2.2.2.2.2.2.1 rfl, h.2.2.2.2.2.2.2.2.2.1 rfl,
    h.2.2.2.2.2.2.2.2.2.2.1 rfl, h.2.2.2.2.2.2.2.2.2.2.2 rfl⟩

/-- C3: For every input dataset, each absent mandatory field is filled with
its specified default — the CT-image class constant, freshly generated
identifiers for the instance/study/series fields (three pairwise distinct
fresh values), `"CT"`, `"Anonymous"`, `"12345"`, position `(0,0,0)`,
orientation `(1,0,0,0,1,0)`, spacing `(1.0,1.0)`, thickness `1.0`,
`"MONOCHROME2"` — and content date and time are always stamped with the
current wall-clock time, even when already present. -/
theorem fix_single_dicom_defaults (ds : Dataset) (g : Nat) (now : DateTime) :
    (ds.SOPClassUID = none → (fix_single_dicom ds g now).1.SOPClassUID = some CTImageStorage) ∧
    (ds.SOPInstanceUID = none → (fix_single_dicom ds g now).1.SOPInstanceUID = some (UID.generated g)) ∧
    (ds.Modality = none → (fix_single_dicom ds g now).1.Modality = some "CT") ∧
    (ds.PatientName = none → (fix_single_dicom ds g now).1.PatientName = some "Anonymous") ∧
    (ds.PatientID = none → (fix_single_dicom ds g now).1.PatientID = some "12345") ∧
    (ds.StudyInstanceUID = none → (fix_single_dicom ds g now).1.StudyInstanceUID = some (UID.generated (g + 1))) ∧
    (ds.SeriesInstanceUID = none → (fix_single_dicom ds g now).1.SeriesInstanceUID = some (UID.generated (g + 2))) ∧
    (ds.ImagePositionPatient = none → (fix_single_dicom ds g now).1.ImagePositionPatient = some [0, 0, 0]) ∧
    (ds.ImageOrientationPatient = none → (fix_single_dicom ds g now).1.ImageOrientationPatient = some [1, 0, 0, 0, 1, 0]) ∧
    (ds.PixelSpacing = none → (fix_single_dicom ds g now).1.PixelSpacing = some [1, 1]) ∧
    (ds.SliceThickness = none → (fix_single_dicom ds g now).1.SliceThickness = some 1) ∧
    (ds.PhotometricInterpretation = none → (fix_single_dicom ds g now).1.PhotometricInterpretation = some "MONOCHROME2") ∧
    (UID.generated g ≠ UID.generated (g + 1) ∧ UID.generated g ≠ UID.generated (g + 2) ∧
      UID.generated (g + 1) ≠ UID.generated (g + 2)) ∧
    (fix_single_dicom ds g now).1.ContentDate = some now.date ∧
    (fix_single_dicom ds g now).1.ContentTime = some now.time := by
  refine ⟨?_, ?_, ?_, ?_, ?_, ?_, ?_, ?_, ?_, ?_, ?_, ?_, ⟨?_, ?_, ?_⟩, ?_, ?_⟩ <;>
    first
      | (intro h; simp [fix_single_dicom, h, CTImageStorage])
      | simp [fix_single_dicom]

/-- Witness for C3 at the empty dataset. -/
theorem fix_single_dicom_defaults_witness :
    (fix_single_dicom emptyDataset 7 ⟨"20260102", "090000"⟩).1.SOPClassUID = some CTImageStorage ∧
    (fix_single_dicom emptyDataset 7 ⟨"20260102", "090000"⟩).1.SOPInstanceUID = some (UID.generated 7) ∧
    (fix_single_dicom emptyDataset 7 ⟨"20260102", "090000"⟩).1.Modality = some "CT" ∧
    (fix_single_dicom emptyDataset 7 ⟨"20260102", "090000"⟩).1.PatientName = some "Anonymous" ∧
    (fix_single_dicom emptyDataset 7 ⟨"20260102", "090000"⟩).1.PatientID = some "12345" ∧
    (fix_single_dicom emptyDataset 7 ⟨"20260102", "090000"⟩).1.StudyInstanceUID = some (UID.generated 8) ∧
    (fix_single_dicom emptyDataset 7 ⟨"20260102", "090000"⟩).1.SeriesInstanceUID = some (UID.generated 9) ∧
    (fix_single_dicom emptyDataset 7 ⟨"20260102", "090000"⟩).1.ImagePositionPatient = some [0, 0, 0] ∧
    (fix_single_dicom emptyDataset 7 ⟨"20260102", "090000"⟩).1.ImageOrientationPatient = some [1, 0, 0, 0, 1, 0] ∧
    (fix_single_dicom emptyDataset 7 ⟨"20260102", "090000"⟩).1.PixelSpacing = some [1, 1] ∧
    (fix_single_dicom emptyDataset 7 ⟨"20260102", "090000"⟩).1.SliceThickness = some 1 ∧
    (fix_single_dicom emptyDataset 7 ⟨"20260102", "090000"⟩).1.PhotometricInterpretation = some "MONOCHROME2" ∧
    (fix_single_dicom emptyDataset 7 ⟨"20260102", "090000"⟩).1.ContentDate = some "20260102" ∧
    (fix_single_dicom emptyDataset 7 ⟨"20260102", "090000"⟩).1.ContentTime = some "090000" := by
  have h := fix_single_dicom_defaults emptyDataset 7 ⟨"20260102", "090000"⟩
  exact ⟨h.1 rfl, h.2.1 rfl, h.2.2.1 rfl, h.2.2.2.1 rfl, h.2.2.2.2.1 rfl,
    h.2.2.2.2.2.1 rfl, h.2.2.2.2.2.2.1 rfl, h.2.2.2.2.2.2.2.1 rfl,
    h.2.2.2.2.2.2.2.2.1 rfl, h.2.2.2.2.2.2.2.2.2.1 rfl,
    h.2.2.2.2.2.2.2.2.2.2.1 rfl, h.2.2.2.2.2.2.2.2.2.2.2.1 rfl,
    h.2.2.2.2.2.2.2.2.2.2.2.2.2.1, h.2.2.2.2.2.2.2.2.2.2.2.2.2.2⟩

/-- C4: The Metadata Normalizer is idempotent: applying `fix_single_dicom` to
an already-fixed dataset changes nothing except content date and content
time, which are refreshed to the time of the second application. -/
theorem fix_single_dicom_idempotent (ds : Dataset) (g g' : Nat) (now now' : DateTime) :
    (fix_single_dicom (fix_single_dicom ds g now).1 g' now').1 =
      { (fix_single_dicom ds g now).1 with
          ContentDate := some now'.date
          ContentTime := some now'.time } := by
  cases ds
  simp [fix_single_dicom]

/-- An exception raised by pydicom while reading or fixing one file:
`InvalidDicomError` or any other `Exception` (carrying its message). -/
inductive DcmError where
  | invalidDicom
  | other (s : String)
deriving DecidableEq, Repr

/-- The archive-level failure `zipfile.BadZipFile`. -/
inductive ArchiveError where
  | badZipFile
deriving DecidableEq, Repr

/-- Python `str.lower()` restricted to the character-wise case mapping. -/
def pyLower (s : String) : String := String.mk (s.data.map Char.toLower)

/-- Python `str.endswith(suffix)`: the character-list suffix test. -/
def pyEndsWith (s suffix : String) : Bool :=
  List.isSuffixOf suffix.data s.data

/-- The extension filter of the batch loop (src/app.py line 87):
`name.lower().endswith((".dcm", ".raw", ".bin"))`. -/
def dicomNameOk (name : String) : Bool :=
  pyEndsWith (pyLower name) ".dcm" || pyEndsWith (pyLower name) ".raw" ||
    pyEndsWith (pyLower name) ".bin"

/-- The diagnostic text written for a failing item (src/app.py lines
105-115); the `traceback.format_exc()` suffix of the generic branch is
carried inside the exception's message string. -/
def errorMessage (name : String) : DcmError → String
  | .invalidDicom => name ++ " is not a valid DICOM file (missing header)"
  | .other s => "Error fixing " ++ name ++ ": " ++ s

/-- One entry written into the output ZIP: either a fixed DICOM file
(`output_zip.writestr(f"fixed_{name}", fixed_data)`) or an error text file
(`output_zip.writestr(f"error_{name}.txt", msg)`). -/
inductive OutEntry where
  | fixedFile (zipName : String) (ds : Dataset)
  | errorFile (zipName : String) (msg : String)
deriving DecidableEq, Repr

/-- Whether an output entry is an error descriptor. -/
def OutEntry.isError : OutEntry → Bool
  | .fixedFile _ _ => false
  | .errorFile _ _ => true

/-- The name under which an output entry is stored in the output ZIP. -/
def OutEntry.zipName : OutEntry → String
  | .fixedFile z _ => z
  | .errorFile z _ => z

/-- Whether an `Except` computation succeeded. -/
def exceptOk {ε β : Type} : Except ε β → Bool
  | .ok _ => true
  | .error _ => false

/-- The per-file loop of `fix_dicom_zip` (src/app.py lines 86-115).
`dcmread` models `pydicom.dcmread(..., force=True)` followed by everything
else inside the per-file `try` that can raise, `g` the `generate_uid()`
counter.  Returns the output ZIP entries in write order together with the
final counter and the `total_files` and `error_files` tallies. -/
def fixLoop {α : Type} (dcmread : α → Except DcmError Dataset) (now : DateTime) :
    List (String × α) → Nat → List OutEntry × Nat × Nat × Nat
  | [], g => ([], g, 0, 0)
  | (name, content) :: rest, g =>
    if dicomNameOk name then
      match dcmread content with
      | .ok ds =>
          let fg := fix_single_dicom ds g now
          let r := fixLoop dcmread now rest fg.2
          (OutEntry.fixedFile ("fixed_" ++ name) fg.1 :: r.1,
            r.2.1, r.2.2.1 + 1, r.2.2.2)
      | .error e =>
          let r := fixLoop dcmread now rest g
          (OutEntry.errorFile ("error_" ++ name ++ ".txt") (errorMessage name e) :: r.1,
            r.2.1, r.2.2.1 + 1, r.2.2.2 + 1)
    else
      fixLoop dcmread now rest g

/-- The `/dicom/fix` endpoint `fix_dicom_zip` (src/app.py lines 61-134)
above the transport layer: the upload has either been extracted into a list
of `(name, contents)` entries, or extraction raised `zipfile.BadZipFile`, in
which case the endpoint answers HTTP 400 with the fixed detail string and
hands back no per-item artifact. -/
def fix_dicom_zip {α : Type} (extracted : Except ArchiveError (List (String × α)))
    (dcmread : α → Except DcmError Dataset) (g : Nat) (now : DateTime) :
    Except (Nat × String) (List OutEntry) :=
  match extracted with
  | .error _ => .error (400, "Uploaded file is not a valid ZIP archive.")
  | .ok entries => .ok (fixLoop dcmread now entries g).1

/-- The error descriptor the claim pairs with a failing accepted item:
`none` for skipped or succeeding items. -/
def errDescriptor {α : Type} (dcmread : α → Except DcmError Dataset)
    (e : String × α) : Option OutEntry :=
  if dicomNameOk e.1 then
    match dcmread e.2 with
    | .ok _ => none
    | .error err =>
        some (OutEntry.errorFile ("error_" ++ e.1 ++ ".txt") (errorMessage e.1 err))
  else none

/-- The output name the claim pairs with a succeeding accepted item:
`none` for skipped or failing items. -/
def succName {α : Type} (dcmread : α → Except DcmError Dataset)
    (e : String × α) : Option String :=
  if dicomNameOk e.1 && exceptOk (dcmread e.2) then some ("fixed_" ++ e.1) else none

/-- An accepted item on which processing fails. -/
def isFailing {α : Type} (dcmread : α → Except DcmError Dataset)
    (e : String × α) : Bool :=
  dicomNameOk e.1 && !exceptOk (dcmread e.2)

/-- Whether an output entry is a successfully fixed file. -/
def OutEntry.isFixed (o : OutEntry) : Bool := !o.isError

theorem exceptOk_ok {ε β : Type} (b : β) : exceptOk (Except.ok b : Except ε β) = true := rfl

theorem exceptOk_error {ε β : Type} (e : ε) :
    exceptOk (Except.error e : Except ε β) = false := rfl

theorem isError_fixedFile (z : String) (d : Dataset) :
    (OutEntry.fixedFile z d).isError = false := rfl

theorem isError_errorFile (z m : String) : (OutEntry.errorFile z m).isError = true := rfl

/-- Success entries of the batch loop are, in order, the `fixed_`-prefixed
names of the accepted items that process successfully. -/
theorem fixLoop_fixed_names {α : Type} (dcmread : α → Except DcmError Dataset)
    (now : DateTime) (entries : List (String × α)) (g : Nat) :
    ((fixLoop dcmread now entries g).1.filter OutEntry.isFixed).map OutEntry.zipName =
      entries.filterMap (succName dcmread) := by
  induction entries generalizing g with
  | nil => simp [fixLoop]
  | cons e rest ih =>
    obtain ⟨name, content⟩ := e
    by_cases hn : dicomNameOk name
    · cases hr : dcmread content with
      | ok ds =>
          have hs : succName dcmread (name, content) = some ("fixed_" ++ name) := by
            simp [succName, hn, hr, exceptOk_ok]
          simp [fixLoop, hn, hr, List.filter_cons, List.filterMap_cons, hs,
            OutEntry.isFixed, isError_fixedFile, OutEntry.zipName,
            ih (fix_single_dicom ds g now).2]
      | error err =>
          have hs : succName dcmread (name, content) = none := by
            simp [succName, hn, hr, exceptOk_error]
          simp [fixLoop, hn, hr, List.filter_cons, List.filterMap_cons, hs,
            OutEntry.isFixed, isError_errorFile, ih g]
    · have hs : succName dcmread (name, content) = none := by
        simp [succName, hn]
      simp [fixLoop, hn, List.filterMap_cons, hs, ih g]

/-- Error entries of the batch loop are, in order, exactly the error
descriptors of the accepted items that fail, keyed by the original name. -/
theorem fixLoop_error_entries {α : Type} (dcmread : α → Except DcmError Dataset)
    (now : DateTime) (entries : List (String × α)) (g : Nat) :
    (fixLoop dcmread now entries g).1.filter OutEntry.isError =
      entries.filterMap (errDescriptor dcmread) := by
  induction entries generalizing g with
  | nil => simp [fixLoop]
  | cons e rest ih =>
    obtain ⟨name, content⟩ := e
    by_cases hn : dicomNameOk name
    · cases hr : dcmread content with
      | ok ds =>
          have hd : errDescriptor dcmread (name, content) = none := by
            simp [errDescriptor, hn, hr]
          simp [fixLoop, hn, hr, List.filter_cons, List.filterMap_cons, hd,
            isError_fixedFile, ih (fix_single_dicom ds g now).2]
      | error err =>
          have hd : errDescriptor dcmread (name, content) =
              some (OutEntry.errorFile ("error_" ++ name ++ ".txt")
                (errorMessage name err)) := by
            simp [errDescriptor, hn, hr]
          simp [fixLoop, hn, hr, List.filter_cons, List.filterMap_cons, hd,
            isError_errorFile, ih g]
    · have hd : errDescriptor dcmread (name, content) = none := by
        simp [errDescriptor, hn]
      simp [fixLoop, hn, List.filterMap_cons, hd, ih g]

/-- The number of error entries equals the number of accepted failing items. -/
theorem fixLoop_error_count {α : Type} (dcmread : α → Except DcmError Dataset)
    (now : DateTime) (entries : List (String × α)) (g : Nat) :
    ((fixLoop dcmread now entries g).1.filter OutEntry.isError).length =
      (entries.filter (isFailing dcmread)).length := by
  induction entries generalizing g with
  | nil => simp [fixLoop]
  | cons e rest ih =>
    obtain ⟨name, content⟩ := e
    by_cases hn : dicomNameOk name
    · cases hr : dcmread content with
      | ok ds =>
          have hf : isFailing dcmread (name, content) = false := by
            simp [isFailing, hn, hr, exceptOk_ok]
          simp [fixLoop, hn, hr, List.filter_cons, hf, isError_fixedFile,
            ih (fix_single_dicom ds g now).2]
      | error err =>
          have hf : isFailing dcmread (name, content) = true := by
            simp [isFailing, hn, hr, exceptOk_error]
          simp [fixLoop, hn, hr, List.filter_cons, hf, isError_errorFile, ih g]
    · have hf : isFailing dcmread (name, content) = false := by
        simp [isFailing, hn]
      simp [fixLoop, hn, List.filter_cons, hf, ih g]

/-- Success count plus failure count equals the number of accepted items. -/
theorem fixLoop_count_partition {α : Type} (dcmread : α → Except DcmError Dataset)
    (now : DateTime) (entries : List (String × α)) (g : Nat) :
    ((fixLoop dcmread now entries g).1.filter OutEntry.isFixed).length +
        (entries.filter (isFailing dcmread)).length =
      (entries.filter (fun e => dicomNameOk e.1)).length := by
  induction entries generalizing g with
  | nil => simp [fixLoop]
  | cons e rest ih =>
    obtain ⟨name, content⟩ := e
    by_cases hn : dicomNameOk name
    · cases hr : dcmread content with
      | ok ds =>
          have hf : isFailing dcmread (name, content) = false := by
            simp [isFailing, hn, hr, exceptOk_ok]
          have hh : OutEntry.isFixed
              (OutEntry.fixedFile ("fixed_" ++ name) (fix_single_dicom ds g now).1) = true := rfl
          have h := ih (fix_single_dicom ds g now).2
          simp [fixLoop, hn, hr, List.filter_cons, hf, hh]
          omega
      | error err =>
          have hf : isFailing dcmread (name, content) = true := by
            simp [isFailing, hn, hr, exceptOk_error]
          have hh : OutEntry.isFixed
              (OutEntry.errorFile ("error_" ++ name ++ ".txt") (errorMessage name err)) = false := rfl
          have h := ih g
          simp [fixLoop, hn, hr, List.filter_cons, hf, hh]
          omega
    · have hf : isFailing dcmread (name, content) = false := by
        simp [isFailing, hn]
      have h := ih g
      simp [fixLoop, hn, List.filter_cons, hf]
      omega

/-- Every output entry of the batch is either a success or an error entry:
the two filtered views together cover the whole output. -/
theorem length_filter_fixed_add_error (l : List OutEntry) :
    (l.filter OutEntry.isFixed).length + (l.filter OutEntry.isError).length = l.length := by
  induction l with
  | nil => simp
  | cons o rest ih =>
    cases o <;> simp [List.filter_cons, OutEntry.isFixed, OutEntry.isError] <;> omega

/-- C1: A failure of one item never aborts the batch: for extracted entries
with `n` accepted-extension items of which `k` fail, the output ZIP holds
exactly `n - k` fixed records and exactly `k` error descriptors; the error
descriptors are, in order, exactly the descriptors keyed by the failing
items' original names (1:1), the fixed records are keyed by the succeeding
items' names, the two kinds exhaust the output, and skipped items with
non-accepted extensions appear in neither. -/
theorem fix_dicom_zip_batch_isolation {α : Type} (dcmread : α → Except DcmError Dataset)
    (now : DateTime) (entries : List (String × α)) (g : Nat) :
    fix_dicom_zip (Except.ok entries) dcmread g now =
      Except.ok (fixLoop dcmread now entries g).1 ∧
    ((fixLoop dcmread now entries g).1.filter OutEntry.isFixed).length =
      (entries.filter (fun e => dicomNameOk e.1)).length -
        (entries.filter (isFailing dcmread)).length ∧
    ((fixLoop dcmread now entries g).1.filter OutEntry.isError).length =
      (entries.filter (isFailing dcmread)).length ∧
    (fixLoop dcmread now entries g).1.filter OutEntry.isError =
      entries.filterMap (errDescriptor dcmread) ∧
    ((fixLoop dcmread now entries g).1.filter OutEntry.isFixed).map OutEntry.zipName =
      entries.filterMap (succName dcmread) ∧
    ((fixLoop dcmread now entries g).1.filter OutEntry.isFixed).length +
        ((fixLoop dcmread now entries g).1.filter OutEntry.isError).length =
      (fixLoop dcmread now entries g).1.length := by
  refine ⟨rfl, ?_, fixLoop_error_count dcmread now entries g,
    fixLoop_error_entries dcmread now entries g,
    fixLoop_fixed_names dcmread now entries g,
    length_filter_fixed_add_error _⟩
  have h := fixLoop_count_partition dcmread now entries g
  omega

/-- C7: If the uploaded archive itself is unreadable (`zipfile.BadZipFile`),
the whole batch request fails with the single HTTP 400 failure and no
per-item artifact is handed to the caller. -/
theorem fix_dicom_zip_bad_archive {α : Type} (dcmread : α → Except DcmError Dataset)
    (g : Nat) (now : DateTime) :
    fix_dicom_zip
        (Except.error ArchiveError.badZipFile : Except ArchiveError (List (String × α)))
        dcmread g now =
      Except.error (400, "Uploaded file is not a valid ZIP archive.") := rfl

/-- Result of the Geometry Validator. -/
inductive ValidateResult where
  | Ok
  | SizeMismatch (expected actual : Nat)
deriving DecidableEq, Repr

/-- Modelled from the spec: the Geometry Validator component
(`validate(pixelBytes, rows, cols, bitDepth) -> Ok | SizeMismatch(expected,
actual)`, design document section 4.1) has no counterpart in `src/app.py`;
only the design document defines it.  `expected = rows * cols *
(bitDepth / 8)` with integer division, and a buffer of any other length
yields `SizeMismatch expected actual`; the function returns, never raises. -/
def validate (pixelBytes : List Nat) (rows cols bitDepth : Nat) : ValidateResult :=
  let expected := rows * cols * (bitDepth / 8)
  if pixelBytes.length = expected then ValidateResult.Ok
  else ValidateResult.SizeMismatch expected pixelBytes.length

/-- C5: For `bitDepth` a multiple of 8, `validate` accepts exactly the
buffers of length `rows * cols * bitDepth / 8` and reports the correct
expected/actual counts on every other length; a 100-byte buffer with
`rows = 10, cols = 10, bitDepth = 8` is accepted, and with `bitDepth = 16`
is rejected with expected 200, actual 100. -/
theorem validate_size_spec (pixelBytes : List Nat) (rows cols bitDepth : Nat)
    (h : 8 ∣ bitDepth) :
    (validate pixelBytes rows cols bitDepth = ValidateResult.Ok ↔
      pixelBytes.length = rows * cols * bitDepth / 8) ∧
    (pixelBytes.length ≠ rows * cols * bitDepth / 8 →
      validate pixelBytes rows cols bitDepth =
        ValidateResult.SizeMismatch (rows * cols * bitDepth / 8) pixelBytes.length) ∧
    validate (List.replicate 100 0) 10 10 8 = ValidateResult.Ok ∧
    validate (List.replicate 100 0) 10 10 16 = ValidateResult.SizeMismatch 200 100 := by
  have he : rows * cols * bitDepth / 8 = rows * cols * (bitDepth / 8) :=
    Nat.mul_div_assoc _ h
  refine ⟨?_, ?_, by simp [validate], by simp [validate]⟩
  · rw [he]
    by_cases hc : pixelBytes.length = rows * cols * (bitDepth / 8) <;>
      simp [validate, hc]
  · rw [he]
    intro hc
    simp [validate, hc]

/-- Witness for C5: the two concrete scenarios of the design document. -/
theorem validate_size_spec_witness :
    validate (List.replicate 100 0) 10 10 8 = ValidateResult.Ok ∧
    validate (List.replicate 100 0) 10 10 16 = ValidateResult.SizeMismatch 200 100 :=
  ⟨(validate_size_spec (List.replicate 100 0) 10 10 8 (by decide)).2.2.1,
   (validate_size_spec (List.replicate 100 0) 10 10 16 (by decide)).2.2.2⟩

/-- Little-endian bytes of one `np.int16` sample, after the wrap-around of
the `np.asarray(data, dtype=np.int16)` cast. -/
def int16LE (v : Int) : List Nat :=
  let u := (v % 65536).toNat
  [u % 256, u / 256]

/-- `data[:, :, i].tobytes()` (src/app.py lines 209-210): the row-major
bytes of slice `i` of the int16-cast voxel volume. -/
def sliceBytes (rows cols : Nat) (data : Nat → Nat → Nat → Int) (i : Nat) :
    List Nat :=
  ((List.range rows).map (fun r =>
    ((List.range cols).map (fun c => int16LE (data r c i))).flatten)).flatten

/-- A slice of a `rows × cols` int16 array serializes to `rows * cols * 2`
bytes. -/
theorem sliceBytes_length (rows cols : Nat) (data : Nat → Nat → Nat → Int)
    (i : Nat) : (sliceBytes rows cols data i).length = rows * cols * 2 := by
  simp [sliceBytes, List.length_flatten, Function.comp_def, int16LE,
    List.map_const]
  ring

/-- Python `f"{i:04d}"`: decimal digits left-padded with zeros to width 4. -/
def pad4 (i : Nat) : String :=
  let s := toString i
  String.mk (List.replicate (4 - s.length) '0') ++ s

/-- One slice dataset built by the loop body of `nifti_to_dicom_zip`
(src/app.py lines 172-221).  `g` is the counter value consumed by this
iteration's `generate_uid()` call, whose value becomes both the file-meta
media-storage SOP instance UID and `SOPInstanceUID`. -/
def makeSliceDataset (rows cols : Nat) (data : Nat → Nat → Nat → Int)
    (affine : Nat → Nat → ℚ) (study series : UID) (g : Nat) (now : DateTime)
    (i : Nat) : Dataset :=
  { file_meta :=
      { TransferSyntaxUID := some ExplicitVRLittleEndian
        MediaStorageSOPClassUID := some CTImageStorage
        MediaStorageSOPInstanceUID := some (UID.generated g) }
    SOPClassUID := some CTImageStorage
    SOPInstanceUID := some (UID.generated g)
    StudyInstanceUID := some study
    SeriesInstanceUID := some series
    Modality := some "CT"
    PatientName := some "Anonymous"
    PatientID := some "NIFTI001"
    Rows := some rows
    Columns := some cols
    InstanceNumber := some (i + 1)
    ImagePositionPatient := some [affine 0 3, affine 1 3, affine 2 3 + (i : ℚ)]
    ImageOrientationPatient := some [1, 0, 0, 0, 1, 0]
    PixelSpacing := some [1, 1]
    SliceThickness := some 1
    PixelData := some (sliceBytes rows cols data i)
    BitsAllocated := some 16
    BitsStored := some 16
    HighBit := some 15
    SamplesPerPixel := some 1
    PhotometricInterpretation := some "MONOCHROME2"
    PixelRepresentation := some 1
    ContentDate := some now.date
    ContentTime := some now.time }

/-- The volume-slicing core of `nifti_to_dicom_zip` (src/app.py lines
162-226): the study UID and series UID are generated once before the loop
(counter values `g` and `g + 1`), then one output ZIP entry `f"{i:04d}.dcm"`
is written per slice in increasing index order, slice `i` consuming counter
value `g + 2 + i`. -/
def sliceVolume (rows cols slices : Nat) (data : Nat → Nat → Nat → Int)
    (affine : Nat → Nat → ℚ) (g : Nat) (now : DateTime) :
    List (String × Dataset) :=
  let study := UID.generated g
  let series := UID.generated (g + 1)
  (List.range slices).map (fun i =>
    (pad4 i ++ ".dcm",
      makeSliceDataset rows cols data affine study series (g + 2 + i) now i))

/-- The filename filter of the `/dicom/nifti-convert` endpoint
(src/app.py line 144): `file.filename.lower().endswith((".nii", ".nii.gz"))`. -/
def niftiNameOk (filename : String) : Bool :=
  pyEndsWith (pyLower filename) ".nii" || pyEndsWith (pyLower filename) ".nii.gz"

/-- The `/dicom/nifti-convert` endpoint `nifti_to_dicom_zip` (src/app.py
lines 138-235) above the transport layer.  The filename check precedes the
`await file.read()` of the upload, so the rejection branch is independent of
the volume content; on a matching name the loaded volume is sliced. -/
def nifti_to_dicom_zip (filename : String) (rows cols slices : Nat)
    (data : Nat → Nat → Nat → Int) (affine : Nat → Nat → ℚ) (g : Nat)
    (now : DateTime) : Except (Nat × String) (List (String × Dataset)) :=
  if niftiNameOk filename then
    Except.ok (sliceVolume rows cols slices data affine g now)
  else
    Except.error (400, "Only .nii or .nii.gz files are supported")

/-- The entry the slicer emits at index `i < slices`. -/
theorem sliceVolume_getD (rows cols slices : Nat) (data : Nat → Nat → Nat → Int)
    (affine : Nat → Nat → ℚ) (g : Nat) (now : DateTime) (i : Nat)
    (h : i < slices) :
    (sliceVolume rows cols slices data affine g now).getD i ("", emptyDataset) =
      (pad4 i ++ ".dcm",
        makeSliceDataset rows cols data affine (UID.generated g)
          (UID.generated (g + 1)) (g + 2 + i) now i) := by
  simp [sliceVolume, List.getD_eq_getElem?_getD, List.getElem?_map,
    List.getElem?_range, h]

/-- C6: For a volume of shape `(R, C, S)` the slicer emits exactly `S`
records in increasing slice order; the record at index `i` has
`InstanceNumber = i + 1` (hence strictly increasing from 1 to `S`),
`ImagePositionPatient = (affine[0,3], affine[1,3], affine[2,3] + i)`, and
every record carries the same study and series identifiers, generated once
for the whole call. -/
theorem sliceVolume_emits_slices (rows cols slices : Nat)
    (data : Nat → Nat → Nat → Int) (affine : Nat → Nat → ℚ) (g : Nat)
    (now : DateTime) :
    (sliceVolume rows cols slices data affine g now).length = slices ∧
    ∀ i, i < slices →
      ((sliceVolume rows cols slices data affine g now).getD i
          ("", emptyDataset)).2.InstanceNumber = some (i + 1) ∧
      ((sliceVolume rows cols slices data affine g now).getD i
          ("", emptyDataset)).2.ImagePositionPatient =
        some [affine 0 3, affine 1 3, affine 2 3 + (i : ℚ)] ∧
      ((sliceVolume rows cols slices data affine g now).getD i
          ("", emptyDataset)).2.StudyInstanceUID = some (UID.generated g) ∧
      ((sliceVolume rows cols slices data affine g now).getD i
          ("", emptyDataset)).2.SeriesInstanceUID = some (UID.generated (g + 1)) := by
  refine ⟨by simp [sliceVolume], fun i h => ?_⟩
  rw [sliceVolume_getD rows cols slices data affine g now i h]
  simp [makeSliceDataset]

/-- Witness for C6 at a concrete 1 × 1 × 2 volume, slice index 1. -/
theorem sliceVolume_emits_slices_witness :
    (sliceVolume 1 1 2 (fun _ _ _ => 0) (fun _ _ => 0) 0
        ⟨"20260101", "000000"⟩).length = 2 ∧
    ((sliceVolume 1 1 2 (fun _ _ _ => 0) (fun _ _ => 0) 0
          ⟨"20260101", "000000"⟩).getD 1 ("", emptyDataset)).2.InstanceNumber =
      some 2 ∧
    ((sliceVolume 1 1 2 (fun _ _ _ => 0) (fun _ _ => 0) 0
          ⟨"20260101", "000000"⟩).getD 1 ("", emptyDataset)).2.StudyInstanceUID =
      some (UID.generated 0) ∧
    ((sliceVolume 1 1 2 (fun _ _ _ => 0) (fun _ _ => 0) 0
          ⟨"20260101", "000000"⟩).getD 1 ("", emptyDataset)).2.SeriesInstanceUID =
      some (UID.generated 1) := by
  have h := sliceVolume_emits_slices 1 1 2 (fun _ _ _ => 0) (fun _ _ => 0) 0
    ⟨"20260101", "000000"⟩
  exact ⟨h.1, (h.2 1 (by decide)).1, (h.2 1 (by decide)).2.2.1,
    (h.2 1 (by decide)).2.2.2⟩

/-- C10: The volume-conversion endpoint rejects every upload whose filename
does not end in `.nii` or `.nii.gz` case-insensitively with an HTTP 400
response; the result is the same for every volume content, so no slice
record is produced and nothing of the file is processed. -/
theorem nifti_convert_rejects_bad_name (filename : String) (rows cols slices : Nat)
    (data : Nat → Nat → Nat → Int) (affine : Nat → Nat → ℚ) (g : Nat)
    (now : DateTime) (h : pyEndsWith (pyLower filename) ".nii" = false)
    (h2 : pyEndsWith (pyLower filename) ".nii.gz" = false) :
    nifti_to_dicom_zip filename rows cols slices data affine g now =
      Except.error (400, "Only .nii or .nii.gz files are supported") := by
  simp [nifti_to_dicom_zip, niftiNameOk, h, h2]

/-- Witness for C10 at the filename `"scan.txt"`. -/
theorem nifti_convert_rejects_bad_name_witness :
    pyEndsWith (pyLower "scan.txt") ".nii" = false ∧
    pyEndsWith (pyLower "scan.txt") ".nii.gz" = false ∧
    nifti_to_dicom_zip "scan.txt" 1 1 1 (fun _ _ _ => 0) (fun _ _ => 0) 0
        ⟨"20260101", "000000"⟩ =
      Except.error (400, "Only .nii or .nii.gz files are supported") :=
  ⟨by decide, by decide,
    nifti_convert_rejects_bad_name "scan.txt" 1 1 1 (fun _ _ _ => 0)
      (fun _ _ => 0) 0 ⟨"20260101", "000000"⟩ (by decide) (by decide)⟩

/-- A dataset whose declared geometry (10 × 10 pixels at 16 bits) disagrees
with its 100-byte pixel payload. -/
def dsBadGeom : Dataset :=
  { Rows := some 10
    Columns := some 10
    BitsAllocated := some 16
    PixelData := some (List.replicate 100 0) }

/-- Counterexample to C8 as stated: the batch-path fixer hands
`dsBadGeom` through with its 100-byte pixel payload and its declared
geometry untouched, although `rows * cols * (bitDepth / 8) = 200`; the
pixel-length half of the record invariant is not enforced on that path. -/
theorem fix_single_dicom_pixel_length_cex :
    ((fix_single_dicom dsBadGeom 0 ⟨"20260101", "000000"⟩).1.PixelData.getD []).length = 100 ∧
    ((fix_single_dicom dsBadGeom 0 ⟨"20260101", "000000"⟩).1.Rows.getD 0) *
        ((fix_single_dicom dsBadGeom 0 ⟨"20260101", "000000"⟩).1.Columns.getD 0) *
        (((fix_single_dicom dsBadGeom 0 ⟨"20260101", "000000"⟩).1.BitsAllocated.getD 0) / 8) =
      200 ∧
    (100 : Nat) ≠ 200 := by
  refine ⟨?_, by simp [fix_single_dicom, dsBadGeom], by decide⟩
  simp [fix_single_dicom, dsBadGeom]

/-- C8 amended: after normalization every mandatory metadata field is
present and non-null on both paths; the pixel-length half of the invariant
holds for every record the Volume Slicer emits (whose byte count is
`rows * cols * (16 / 8)`), but the batch-path fixer does not validate or
restore it, so it holds there only if the input already satisfied it. -/
theorem imageRecord_invariant_amended :
    (∀ (ds : Dataset) (g : Nat) (now : DateTime),
      (fix_single_dicom ds g now).1.SOPClassUID.isSome ∧
      (fix_single_dicom ds g now).1.SOPInstanceUID.isSome ∧
      (fix_single_dicom ds g now).1.Modality.isSome ∧
      (fix_single_dicom ds g now).1.PatientName.isSome ∧
      (fix_single_dicom ds g now).1.PatientID.isSome ∧
      (fix_single_dicom ds g now).1.StudyInstanceUID.isSome ∧
      (fix_single_dicom ds g now).1.SeriesInstanceUID.isSome ∧
      (fix_single_dicom ds g now).1.ImagePositionPatient.isSome ∧
      (fix_single_dicom ds g now).1.ImageOrientationPatient.isSome ∧
      (fix_single_dicom ds g now).1.PixelSpacing.isSome ∧
      (fix_single_dicom ds g now).1.SliceThickness.isSome ∧
      (fix_single_dicom ds g now).1.PhotometricInterpretation.isSome ∧
      (fix_single_dicom ds g now).1.ContentDate.isSome ∧
      (fix_single_dicom ds g now).1.ContentTime.isSome) ∧
    (∀ (rows cols slices : Nat) (data : Nat → Nat → Nat → Int)
        (affine : Nat → Nat → ℚ) (g : Nat) (now : DateTime) (i : Nat),
      i < slices →
      (((sliceVolume rows cols slices data affine g now).getD i
          ("", emptyDataset)).2.SOPClassUID.isSome ∧
        ((sliceVolume rows cols slices data affine g now).getD i
          ("", emptyDataset)).2.SOPInstanceUID.isSome ∧
        ((sliceVolume rows cols slices data affine g now).getD i
          ("", emptyDataset)).2.Modality.isSome ∧
        ((sliceVolume rows cols slices data affine g now).getD i
          ("", emptyDataset)).2.PatientName.isSome ∧
        ((sliceVolume rows cols slices data affine g now).getD i
          ("", emptyDataset)).2.PatientID.isSome ∧
        ((sliceVolume rows cols slices data affine g now).getD i
          ("", emptyDataset)).2.StudyInstanceUID.isSome ∧
        ((sliceVolume rows cols slices data affine g now).getD i
          ("", emptyDataset)).2.SeriesInstanceUID.isSome ∧
        ((sliceVolume rows cols slices data affine g now).getD i
          ("", emptyDataset)).2.ImagePositionPatient.isSome ∧
        ((sliceVolume rows cols slices data affine g now).getD i
          ("", emptyDataset)).2.ImageOrientationPatient.isSome ∧
        ((sliceVolume rows cols slices data affine g now).getD i
          ("", emptyDataset)).2.PixelSpacing.isSome ∧
        ((sliceVolume rows cols slices data affine g now).getD i
          ("", emptyDataset)).2.SliceThickness.isSome ∧
        ((sliceVolume rows cols slices data affine g now).getD i
          ("", emptyDataset)).2.PhotometricInterpretation.isSome ∧
        ((sliceVolume rows cols slices data affine g now).getD i
          ("", emptyDataset)).2.ContentDate.isSome ∧
        ((sliceVolume rows cols slices data affine g now).getD i
          ("", emptyDataset)).2.ContentTime.isSome) ∧
      (((sliceVolume rows cols slices data affine g now).getD i
          ("", emptyDataset)).2.PixelData.getD []).length =
        (((sliceVolume rows cols slices data affine g now).getD i
            ("", emptyDataset)).2.Rows.getD 0) *
          (((sliceVolume rows cols slices data affine g now).getD i
              ("", emptyDataset)).2.Columns.getD 0) *
          ((((sliceVolume rows cols slices data affine g now).getD i
              ("", emptyDataset)).2.BitsAllocated.getD 0) / 8)) := by
  constructor
  · intro ds g now
    refine ⟨?_, ?_, ?_, ?_, ?_, ?_, ?_, ?_, ?_, ?_, ?_, ?_, ?_, ?_⟩ <;>
      simp [fix_single_dicom]
  · intro rows cols slices data affine g now i h
    rw [sliceVolume_getD rows cols slices data affine g now i h]
    refine ⟨⟨?_, ?_, ?_, ?_, ?_, ?_, ?_, ?_, ?_, ?_, ?_, ?_, ?_, ?_⟩, ?_⟩ <;>
      simp [makeSliceDataset, sliceBytes_length]

/-- Witness for the amended C8: the pixel-length equation at a concrete
1 × 1 × 1 volume, and two presence facts at concrete inputs. -/
theorem imageRecord_invariant_amended_witness :
    (fix_single_dicom emptyDataset 0 ⟨"20260101", "000000"⟩).1.PatientID.isSome ∧
    (((sliceVolume 1 1 1 (fun _ _ _ => 0) (fun _ _ => 0) 0
        ⟨"20260101", "000000"⟩).getD 0 ("", emptyDataset)).2.PixelData.getD []).length =
      (((sliceVolume 1 1 1 (fun _ _ _ => 0) (fun _ _ => 0) 0
          ⟨"20260101", "000000"⟩).getD 0 ("", emptyDataset)).2.Rows.getD 0) *
        (((sliceVolume 1 1 1 (fun _ _ _ => 0) (fun _ _ => 0) 0
            ⟨"20260101", "000000"⟩).getD 0 ("", emptyDataset)).2.Columns.getD 0) *
        ((((sliceVolume 1 1 1 (fun _ _ _ => 0) (fun _ _ => 0) 0
            ⟨"20260101", "000000"⟩).getD 0 ("", emptyDataset)).2.BitsAllocated.getD 0) / 8) :=
  ⟨(imageRecord_invariant_amended.1 emptyDataset 0 ⟨"20260101", "000000"⟩).2.2.2.2.1,
   (imageRecord_invariant_amended.2 1 1 1 (fun _ _ _ => 0) (fun _ _ => 0) 0
      ⟨"20260101", "000000"⟩ 0 (by decide)).2⟩

/-- Counterexample to C9 as stated: on a concrete 1 × 1 × 1 volume the
emitted slice record carries `PatientID = "NIFTI001"`, not the `"12345"`
placeholder the Single-Item Fixer gives an absent patient ID, so the volume
path does not produce its records by applying the Fixer. -/
theorem sliceVolume_patientID_cex :
    ((sliceVolume 1 1 1 (fun _ _ _ => 0) (fun _ _ => 0) 0
        ⟨"20260101", "000000"⟩).getD 0 ("", emptyDataset)).2.PatientID =
      some "NIFTI001" ∧
    some "NIFTI001" ≠ some "12345" ∧
    (fix_single_dicom emptyDataset 0 ⟨"20260101", "000000"⟩).1.PatientID =
      some "12345" := by
  refine ⟨?_, by decide, by simp [fix_single_dicom, emptyDataset]⟩
  rw [sliceVolume_getD 1 1 1 (fun _ _ _ => 0) (fun _ _ => 0) 0
    ⟨"20260101", "000000"⟩ 0 (by decide)]
  simp [makeSliceDataset]

/-- C9 amended: the volume path builds each slice record directly instead of
calling the Single-Item Fixer; every record it emits is nonetheless already
complete for the Normalizer's field policy — applying the Fixer to it
changes only content date and content time — and its patient ID is the
volume path's own filler `"NIFTI001"`, not the Normalizer placeholder
`"12345"`. -/
theorem sliceVolume_records_normalized (rows cols slices : Nat)
    (data : Nat → Nat → Nat → Int) (affine : Nat → Nat → ℚ) (g : Nat)
    (now : DateTime) (i : Nat) (h : i < slices) (g' : Nat) (now' : DateTime) :
    (fix_single_dicom
          ((sliceVolume rows cols slices data affine g now).getD i
            ("", emptyDataset)).2 g' now').1 =
        { ((sliceVolume rows cols slices data affine g now).getD i
            ("", emptyDataset)).2 with
            ContentDate := some now'.date
            ContentTime := some now'.time } ∧
    ((sliceVolume rows cols slices data affine g now).getD i
        ("", emptyDataset)).2.PatientID = some "NIFTI001" := by
  rw [sliceVolume_getD rows cols slices data affine g now i h]
  constructor
  · simp [fix_single_dicom, makeSliceDataset]
  · simp [makeSliceDataset]

/-- Witness for the amended C9 at a concrete 1 × 1 × 1 volume. -/
theorem sliceVolume_records_normalized_witness :
    ((sliceVolume 1 1 1 (fun _ _ _ => 0) (fun _ _ => 0) 0
        ⟨"20260101", "000000"⟩).getD 0 ("", emptyDataset)).2.PatientID =
      some "NIFTI001" :=
  (sliceVolume_records_normalized 1 1 1 (fun _ _ _ => 0) (fun _ _ => 0) 0
    ⟨"20260101", "000000"⟩ 0 (by decide) 5 ⟨"20270101", "111111"⟩).2
